import Mathlib

/-!
Verification of the Python-subprocess bridge in
`src/gui/src-tauri/src/python/bridge.rs` (struct `PythonBridge`), together
with the process-handle teardown (`impl Drop for BridgeProcess`) and the
locking discipline of `AppState` (`src/gui/src-tauri/src/lib.rs`,
`src/gui/src-tauri/src/commands/task.rs`).

The embedding is a shallow one: the bridge's mutable fields become an
explicit `BridgeState` record that every operation threads through, and the
external world (the spawned backend process, the bytes its stdout produces,
and the `serde_json` library) is an `Env` oracle quantified over in every
theorem.  Messages written to the backend's stdin are collected in an
explicit trace of `WireMsg` values.
-/

namespace ApplyTaskGui

/-! ## JSON values (`serde_json::Value`)

Only the operations the bridge uses are modelled: `Value::get(key)` on an
object (`None` on every non-object), `Value::as_array`, `Value::as_str`. -/

inductive Json where
  | null
  | bool (b : Bool)
  | num (n : Int)
  | str (s : String)
  | arr (items : List Json)
  | obj (fields : List (String × Json))

/-- `serde_json::Value::get(key)`: field lookup on an object, `None` on any
other variant. -/
def Json.get : Json → String → Option Json
  | .obj fields, key => fields.lookup key
  | _, _ => none

/-- `serde_json::Value::as_array`. -/
def Json.as_array : Json → Option (List Json)
  | .arr items => some items
  | _ => none

/-- `serde_json::Value::as_str`. -/
def Json.as_str : Json → Option String
  | .str s => some s
  | _ => none

/-! ## JSON-RPC protocol values

Modelled from the spec: the module `src/gui/src-tauri/src/python/protocol.rs`
(declared in `src/gui/src-tauri/src/python/mod.rs` and supplying
`JsonRpcRequest` / `JsonRpcResponse`) is not in the source tree.  §6 of the
spec fixes the shapes: a request is `{id: u64, method: string, params:
optional value}`, a response is `{id: u64, result: optional value, error:
optional {code: int, message: string}}`.  Ids are `u64`; they are carried as
`Nat` and the counter arithmetic is reduced mod `2^64` where the source
wraps. -/

structure JsonRpcError where
  code : Int
  message : String

structure JsonRpcResponse where
  id : Nat
  result : Option Json
  error : Option JsonRpcError

structure JsonRpcRequest where
  id : Nat
  method : String
  params : Option Json

/-- One message written to the backend's stdin: either a JSON-RPC request
(carrying an id) or an id-less notification (`McpNotification` in the
source).  The source writes the serde serialization of these values, one
line each; the trace keeps the structured value. -/
inductive WireMsg where
  | request (req : JsonRpcRequest)
  | notif (method : String)

/-- The bridge's failure taxonomy.  The source returns `anyhow` errors with
distinct messages; each distinct failure site is one constructor here, named
as in §7 of the spec. -/
inductive BridgeError where
  /-- "Process not running" -/
  | processNotRunning
  /-- "Failed to spawn Python subprocess" / "No executable found" -/
  | processSpawnFailed
  /-- "Python process exited with status: ..." -/
  | processExited (status : Int)
  /-- "Empty response from Python" -/
  | emptyResponse
  /-- "Failed to parse JSON-RPC response" -/
  | malformedResponse
  /-- "Response ID mismatch: expected .., got .." -/
  | responseIdMismatch (expected got : Nat)
  /-- "MCP initialize failed: ..." -/
  | handshakeFailed (err : JsonRpcError)
  /-- "Tool call error {code}: {message}" -/
  | toolInvocationError (code : Int) (message : String)
  /-- "Failed to parse tool response text as JSON" -/
  | envelopeDecodeError
  /-- "Empty tool response" -/
  | emptyToolResponse

/-! ## Bridge state and environment -/

/-- `u64` modulus for the `AtomicU64` request-id counter. -/
def u64Size : Nat := 2 ^ 64

/-- The mutable fields of `PythonBridge`, plus the read position in the
backend's stdout stream:
* `processRunning` — whether `process` (`Arc<Mutex<Option<BridgeProcess>>>`)
  holds a handle;
* `requestId` — the `AtomicU64` request-id counter;
* `initialized` — the `Arc<Mutex<bool>>` handshake flag;
* `readCursor` — how many lines have been consumed from stdout (state of
  the pipe, consulted through `Env.input`). -/
structure BridgeState where
  processRunning : Bool
  requestId : Nat
  initialized : Bool
  readCursor : Nat

/-- Outcome of one `BufReader::read_line` call on the child's stdout:
the line read (empty exactly when zero bytes were read, i.e. EOF), and the
`Child::try_wait` answer that would be observed right after it (`some
status` when the child has exited).  `try_wait` is only consulted by the
code on an empty line. -/
structure ReadResult where
  line : String
  exitStatus : Option Int

/-- The external world, quantified over in every theorem:
* `parseResponse` — `serde_json::from_str::<JsonRpcResponse>`;
* `parseJson` — `serde_json::from_str::<Value>` (used on envelope text);
* `input` — the successive `read_line` outcomes on the backend's stdout. -/
structure Env where
  parseResponse : String → Option JsonRpcResponse
  parseJson : String → Option Json
  input : Nat → ReadResult

/-! ## Bridge operations (`impl PythonBridge`) -/

/-- `PythonBridge::ensure_process` (bridge.rs lines 91–149): if a handle
exists, return at once; otherwise resolve and spawn the backend.  Command
resolution plus `Command::spawn` either succeeds or fails for that attempt;
the oracle bit `spawnOk` stands for that outcome.  The process is spawned
with all three standard streams piped (so stdin/stdout are always present on
a held handle), and the stderr drain thread never touches the protocol
streams. -/
def ensure_process (st : BridgeState) (spawnOk : Bool) :
    Except BridgeError Unit × BridgeState :=
  if st.processRunning then
    (.ok (), st)
  else if spawnOk then
    (.ok (), { st with processRunning := true })
  else
    (.error .processSpawnFailed, st)

/-- `PythonBridge::call_raw` (bridge.rs lines 284–346).  Steps, exactly as
in the source: bump the id counter with `fetch_add` (the allocated id is the
pre-increment value; the stored counter wraps mod `2^64`); fail if no
process handle is held; write the request line; `read_line` once; an empty
line is cross-checked against `try_wait` (`ProcessExited` with the status if
the child is gone, `EmptyResponse` otherwise); parse the line
(`MalformedResponse` on failure); reject a response whose id differs from
the request's (`ResponseIdMismatch`); otherwise return the response.
Pipe-level I/O errors of `writeln!`/`flush`/`read_line` are outside the
model. -/
def call_raw (env : Env) (st : BridgeState) (method : String)
    (params : Option Json) :
    Except BridgeError JsonRpcResponse × BridgeState × List WireMsg :=
  let id := st.requestId
  let st1 : BridgeState := { st with requestId := (st.requestId + 1) % u64Size }
  if !st1.processRunning then
    (.error .processNotRunning, st1, [])
  else
    let sent : List WireMsg := [.request ⟨id, method, params⟩]
    let rd := env.input st1.readCursor
    let st2 : BridgeState := { st1 with readCursor := st1.readCursor + 1 }
    if rd.line.isEmpty then
      match rd.exitStatus with
      | some status => (.error (.processExited status), st2, sent)
      | none => (.error .emptyResponse, st2, sent)
    else
      match env.parseResponse rd.line with
      | none => (.error .malformedResponse, st2, sent)
      | some response =>
        if response.id ≠ id then
          (.error (.responseIdMismatch id response.id), st2, sent)
        else
          (.ok response, st2, sent)

/-- The `McpInitializeParams` value serialized in `initialize_mcp`
(bridge.rs lines 197–204). -/
def initParamsJson : Json :=
  .obj [("protocolVersion", .str "2024-11-05"),
        ("capabilities", .obj []),
        ("clientInfo", .obj [("name", .str "apply-task-gui"),
                             ("version", .str "0.1.0")])]

/-- `PythonBridge::initialize_mcp` (bridge.rs lines 186–243): return at once
if the `initialized` flag is set; otherwise run the `initialize` exchange
through `call_raw` (propagating its error with `?`); a response carrying an
`error` fails the handshake; on success re-check the process handle, write
the `notifications/initialized` notification, and only then set
`initialized := true`. -/
def initialize_mcp (env : Env) (st : BridgeState) :
    Except BridgeError Unit × BridgeState × List WireMsg :=
  if st.initialized then
    (.ok (), st, [])
  else
    match call_raw env st "initialize" (some initParamsJson) with
    | (.error e, st1, sent) => (.error e, st1, sent)
    | (.ok response, st1, sent) =>
      match response.error with
      | some err => (.error (.handshakeFailed err), st1, sent)
      | none =>
        if !st1.processRunning then
          (.error .processNotRunning, st1, sent)
        else
          (.ok (), { st1 with initialized := true },
            sent ++ [.notif "notifications/initialized"])

/-- The `McpToolCallParams` value serialized in `call_tool` (bridge.rs
lines 250–253). -/
def toolCallParams (toolName : String) (arguments : Json) : Json :=
  .obj [("name", .str toolName), ("arguments", arguments)]

/-- The envelope-unwrapping block of `call_tool` (bridge.rs lines 263–278),
applied to a present `response.result`: if the result has a `content` array
with a first item, a `json` field of that item is returned verbatim; failing
that, a string-valued `text` field is parsed as JSON (parse failure is the
"Failed to parse tool response text as JSON" error); in every other case the
whole result is returned unchanged. -/
def unwrap_result (parseJson : String → Option Json) (result : Json) :
    Except BridgeError Json :=
  match (result.get "content").bind Json.as_array with
  | some content =>
    match content.head? with
    | some first =>
      match first.get "json" with
      | some j => .ok j
      | none =>
        match (first.get "text").bind Json.as_str with
        | some text =>
          match parseJson text with
          | some v => .ok v
          | none => .error .envelopeDecodeError
        | none => .ok result
    | none => .ok result
  | none => .ok result

/-- The response handling of `call_tool` after the `tools/call` round trip
(bridge.rs lines 259–281): a set `response.error` maps to the
`ToolInvocationError`; a present `response.result` is unwrapped; neither
present is the "Empty tool response" error. -/
def handle_tool_response (parseJson : String → Option Json)
    (response : JsonRpcResponse) : Except BridgeError Json :=
  match response.error with
  | some err => .error (.toolInvocationError err.code err.message)
  | none =>
    match response.result with
    | some result => unwrap_result parseJson result
    | none => .error .emptyToolResponse

/-- `PythonBridge::call_tool` (bridge.rs lines 246–281): ensure the process
is running, ensure the handshake has completed, run one `tools/call`
request through `call_raw`, and handle the response.  The returned trace is
the concatenation of everything written to stdin during the call. -/
def call_tool (env : Env) (st : BridgeState) (spawnOk : Bool)
    (toolName : String) (arguments : Json) :
    Except BridgeError Json × BridgeState × List WireMsg :=
  match ensure_process st spawnOk with
  | (.error e, st1) => (.error e, st1, [])
  | (.ok _, st1) =>
    match initialize_mcp env st1 with
    | (.error e, st2, sentInit) => (.error e, st2, sentInit)
    | (.ok _, st2, sentInit) =>
      match call_raw env st2 "tools/call"
          (some (toolCallParams toolName arguments)) with
      | (.error e, st3, sentCall) => (.error e, st3, sentInit ++ sentCall)
      | (.ok response, st3, sentCall) =>
        (handle_tool_response env.parseJson response, st3,
          sentInit ++ sentCall)

/-- `PythonBridge::call` (bridge.rs lines 349–352): the public entry point;
absent params default to the empty JSON object. -/
def call (env : Env) (st : BridgeState) (spawnOk : Bool) (toolName : String)
    (params : Option Json) :
    Except BridgeError Json × BridgeState × List WireMsg :=
  call_tool env st spawnOk toolName (params.getD (.obj []))

/-- `PythonBridge::shutdown` (bridge.rs lines 362–372) at the
`BridgeState` level: `guard.take()` clears the process handle when one is
held (the taken handle is killed and waited, see the handle-level model
below), and nothing else of the state is touched.  In particular the
`initialized` flag is left as it was. -/
def shutdown (st : BridgeState) : BridgeState :=
  { st with processRunning := false }

/-- `PythonBridge::is_running` (bridge.rs lines 375–377). -/
def is_running (st : BridgeState) : Bool :=
  st.processRunning

/-! ## Process-handle teardown (kill model)

`BridgeProcess` owns the `Child`; this level records whether `kill` has
been invoked on the child, which is what claims about teardown are about. -/

/-- `std::process::Child`, reduced to the one observable the teardown
claims need: whether `kill` has been asked of it. -/
structure Child where
  killRequested : Bool

/-- `Child::kill` (best effort in the source: its `Result` is discarded). -/
def Child.kill (c : Child) : Child :=
  { c with killRequested := true }

/-- `BridgeProcess` (bridge.rs lines 34–36). -/
structure BridgeProcess where
  child : Child

/-- `impl Drop for BridgeProcess` (bridge.rs lines 380–384): dropping the
handle invokes `kill` on the child. -/
def BridgeProcess.drop (p : BridgeProcess) : Child :=
  p.child.kill

/-- `PythonBridge::shutdown` (bridge.rs lines 362–372) at the handle level:
`guard.take()` empties the slot; a taken handle has `kill` (then `wait`)
invoked on its child.  The second component is the child as left behind by
`shutdown`, when there was one. -/
def shutdown_handle (process : Option BridgeProcess) :
    Option BridgeProcess × Option Child :=
  match process with
  | some p => (none, some p.child.kill)
  | none => (none, none)

/-- Dropping the whole `PythonBridge` (the Session): by Rust ownership the
`Arc<Mutex<Option<BridgeProcess>>>` field is dropped with it, which drops
the held `BridgeProcess` (if any), running `Drop for BridgeProcess`. -/
def pythonBridgeDrop (process : Option BridgeProcess) : Option Child :=
  process.map BridgeProcess.drop

/-! ## Trace predicates used by the theorems -/

/-- Is this wire message the `initialize` request of the handshake? -/
def WireMsg.isInitRequest : WireMsg → Bool
  | .request req => req.method == "initialize"
  | .notif _ => false

/-- Number of `initialize` requests in a stdin trace. -/
def initCount (tr : List WireMsg) : Nat :=
  (tr.filter WireMsg.isInitRequest).length

/-! ## Locking discipline (`AppState.bridge`)

Every Tauri command handler (`src/gui/src-tauri/src/commands/task.rs`)
acquires the single `tokio::sync::Mutex` of `AppState.bridge`
(`src/gui/src-tauri/src/lib.rs` lines 17–24) and holds the guard across its
whole `invoke`/`call` — ensure-started, ensure-initialized, the request
write (`writeln!` writes the serialized request then the newline), and the
response read.  The mutex is modelled by an interleaving semantics over two
callers A (`tid = false`) and B (`tid = true`): a scheduler state holds the
current lock holder and each caller's remaining actions, and a step executes
a caller's next action, acquisition requiring a free lock and every other
action requiring the lock to be held by that caller (which is where each
caller's actions sit in the source: between `lock().await` and the guard's
release). -/

/-- One atomic action of a caller's locked section: acquire the
`AppState.bridge` mutex, write a chunk of bytes to the backend's stdin,
read the response line, release the mutex. -/
inductive LockAction where
  | acq
  | wr (bytes : String)
  | rd
  | rel

/-- A scheduled event: which caller performed which action. -/
structure LockEvent where
  tid : Bool
  act : LockAction

/-- Scheduler state: current lock holder and the two callers' remaining
action lists. -/
structure SchedState where
  holder : Option Bool
  restA : List LockAction
  restB : List LockAction

/-- One scheduling step.  `acq` needs the lock free and takes it; `wr`,
`rd` happen while that caller holds the lock; `rel` gives it back. -/
inductive LockStep : SchedState → LockEvent → SchedState → Prop where
  | acqA {ra rb} :
      LockStep ⟨none, .acq :: ra, rb⟩ ⟨false, .acq⟩ ⟨some false, ra, rb⟩
  | acqB {ra rb} :
      LockStep ⟨none, ra, .acq :: rb⟩ ⟨true, .acq⟩ ⟨some true, ra, rb⟩
  | wrA {s ra rb} :
      LockStep ⟨some false, .wr s :: ra, rb⟩ ⟨false, .wr s⟩ ⟨some false, ra, rb⟩
  | wrB {s ra rb} :
      LockStep ⟨some true, ra, .wr s :: rb⟩ ⟨true, .wr s⟩ ⟨some true, ra, rb⟩
  | rdA {ra rb} :
      LockStep ⟨some false, .rd :: ra, rb⟩ ⟨false, .rd⟩ ⟨some false, ra, rb⟩
  | rdB {ra rb} :
      LockStep ⟨some true, ra, .rd :: rb⟩ ⟨true, .rd⟩ ⟨some true, ra, rb⟩
  | relA {ra rb} :
      LockStep ⟨some false, .rel :: ra, rb⟩ ⟨false, .rel⟩ ⟨none, ra, rb⟩
  | relB {ra rb} :
      LockStep ⟨some true, ra, .rel :: rb⟩ ⟨true, .rel⟩ ⟨none, ra, rb⟩

/-- A complete schedule: a sequence of steps from one scheduler state to
another, recording the event list. -/
inductive LockRuns : SchedState → List LockEvent → SchedState → Prop where
  | nil (s : SchedState) : LockRuns s [] s
  | cons {s s' s'' : SchedState} {e : LockEvent} {tr : List LockEvent} :
      LockStep s e s' → LockRuns s' tr s'' → LockRuns s (e :: tr) s''

/-- The newline byte `writeln!` appends after the serialized request. -/
def nl : String := "\n"

/-- One steady-state `call` as seen by the `AppState.bridge` mutex: take the
lock, write the serialized request line (`request_json` then the newline),
read one response line, release the lock.  `line` is the caller's serialized
request. -/
def callCritical (line : String) : List LockAction :=
  [.acq, .wr line, .wr nl, .rd, .rel]

/-- The chunks written to the backend's stdin, in schedule order. -/
def writesOf (tr : List LockEvent) : List String :=
  tr.filterMap fun e =>
    match e.act with
    | .wr s => some s
    | _ => none

/-- The callers in the order in which they acquired the lock. -/
def acqOrder (tr : List LockEvent) : List Bool :=
  tr.filterMap fun e =>
    match e.act with
    | .acq => some e.tid
    | _ => none

/-- Tag a list of actions with the caller that performed them. -/
def tagEvents (t : Bool) (acts : List LockAction) : List LockEvent :=
  acts.map fun a => ⟨t, a⟩

/-! ## Concrete data used by witnesses and counterexamples -/

/-- An environment for a single round trip on an already-initialized
session: the backend answers every read with the one line `"resp0"`, which
parses as the given response. -/
def mkEnv1 (resp : JsonRpcResponse) (pj : String → Option Json) : Env :=
  { parseResponse := fun s => if s = "resp0" then some resp else none,
    parseJson := pj,
    input := fun _ => ⟨"resp0", none⟩ }

/-- A live, already-handshaken session whose next request id is 0. -/
def readyState : BridgeState := ⟨true, 0, true, 0⟩

/-- The JSON text `{"a":1}` (braces and quotes written as byte escapes). -/
def textPayload : String := "\x7b\x22a\x22:1\x7d"

/-- The JSON value `{"a":1}`. -/
def objA1 : Json := .obj [("a", .num 1)]

/-- The envelope `{"content":[{"type":"json","json":{"a":1}}]}`. -/
def envelopeJsonResult : Json :=
  .obj [("content", .arr [.obj [("type", .str "json"), ("json", objA1)]])]

/-- The envelope `{"content":[{"type":"text","text":"{\"a\":1}"}]}`. -/
def envelopeTextResult : Json :=
  .obj [("content", .arr [.obj [("type", .str "text"),
                                ("text", .str textPayload)]])]

/-- The envelope `{"content":[]}`. -/
def envelopeEmptyResult : Json :=
  .obj [("content", .arr [])]

/-- A content item that carries a `json` field even though its `type` tag
says `"text"` (and a decoy `text` field besides). -/
def mislabeledItem : Json :=
  .obj [("type", .str "text"), ("json", .num 7), ("text", .str "ignored")]

/-- `serde_json::from_str` restricted to the one payload the examples use:
`{"a":1}` parses to the value `{"a":1}`, everything else fails. -/
def exParseJson : String → Option Json :=
  fun s => if s = textPayload then some objA1 else none

/-- A generic JSON-RPC protocol error (`-32600 Invalid Request`). -/
def rpcErr : JsonRpcError := ⟨-32600, "invalid"⟩

/-- A live but not yet handshaken session whose next request id is 1. -/
def c6State : BridgeState := ⟨true, 1, false, 0⟩

/-- A backend that answers the first read with line `"e1"` and every later
read with line `"e2"`; `"e1"` parses as an error response to request 1 and
`"e2"` as an error response to request 2.  The child never exits. -/
def c6Env : Env :=
  { parseResponse := fun s =>
      if s = "e1" then some ⟨1, none, some rpcErr⟩
      else if s = "e2" then some ⟨2, none, some rpcErr⟩
      else none,
    parseJson := fun _ => none,
    input := fun i => if i = 0 then ⟨"e1", none⟩ else ⟨"e2", none⟩ }

/-- A live, already-handshaken session whose next request id is 5. -/
def liveReadyState : BridgeState := ⟨true, 5, true, 0⟩

/-- The result payload `{"success":true}` (no envelope). -/
def successResult : Json := .obj [("success", .bool true)]

/-- A backend for the shutdown-then-call scenario: every read yields the
line `"resp0"`, an id-5 success response. -/
def c1Env : Env := mkEnv1 ⟨5, some successResult, none⟩ (fun _ => none)

/-- The fully serialized schedule in which caller A runs its whole locked
section first, then caller B, with request lines `"x"` and `"y"`. -/
def exCrossTrace : List LockEvent :=
  tagEvents false (callCritical "x") ++ tagEvents true (callCritical "y")

/-- A backend whose one response line answers with id 99 (while the ready
session allocates id 0). -/
def mismatchEnv : Env := mkEnv1 ⟨99, some successResult, none⟩ (fun _ => none)

/-- A backend whose stdout is at EOF while the child has exited with
status 1. -/
def eofDeadEnv : Env :=
  ⟨fun _ => none, fun _ => none, fun _ => ⟨"", some 1⟩⟩

/-- A backend whose stdout is at EOF while the child has not exited. -/
def eofAliveEnv : Env :=
  ⟨fun _ => none, fun _ => none, fun _ => ⟨"", none⟩⟩

/-- A backend answering request 0 with a protocol error `5: boom`. -/
def toolErrEnv : Env := mkEnv1 ⟨0, none, some ⟨5, "boom"⟩⟩ (fun _ => none)

/-- A backend answering request 0 with neither result nor error. -/
def emptyRespEnv : Env := mkEnv1 ⟨0, none, none⟩ (fun _ => none)

/-- A well-behaved backend for the success scenario: line `"i1"` answers
request 1 (the handshake) with an empty-object result, `"t1"` answers
request 2 and `"t2"` request 3 with `{"success":true}`. -/
def c6OkEnv : Env :=
  { parseResponse := fun s =>
      if s = "i1" then some ⟨1, some (.obj []), none⟩
      else if s = "t1" then some ⟨2, some successResult, none⟩
      else if s = "t2" then some ⟨3, some successResult, none⟩
      else none,
    parseJson := fun _ => none,
    input := fun i =>
      if i = 0 then ⟨"i1", none⟩
      else if i = 1 then ⟨"t1", none⟩
      else ⟨"t2", none⟩ }

/-! ## Helper lemmas -/

/-- `call_raw` leaves `processRunning` and `initialized` untouched and
either stops before the read (spawn guard) or advances the read cursor by
one; in every case the id counter has been bumped. -/
lemma call_raw_state (env : Env) (st : BridgeState) (m : String)
    (p : Option Json) :
    (call_raw env st m p).2.1 = { st with requestId := (st.requestId + 1) % u64Size } ∨
    (call_raw env st m p).2.1 = { st with requestId := (st.requestId + 1) % u64Size,
                                          readCursor := st.readCursor + 1 } := by
  unfold call_raw
  dsimp only
  split
  · exact Or.inl rfl
  · split
    · split
      · exact Or.inr rfl
      · exact Or.inr rfl
    · split
      · exact Or.inr rfl
      · split
        · exact Or.inr rfl
        · exact Or.inr rfl

lemma call_raw_initialized (env : Env) (st : BridgeState) (m : String)
    (p : Option Json) :
    ((call_raw env st m p).2.1).initialized = st.initialized := by
  rcases call_raw_state env st m p with h | h <;> rw [h]

lemma call_raw_processRunning (env : Env) (st : BridgeState) (m : String)
    (p : Option Json) :
    ((call_raw env st m p).2.1).processRunning = st.processRunning := by
  rcases call_raw_state env st m p with h | h <;> rw [h]

/-- Everything `call_raw` writes is the single request it was asked to
send. -/
lemma call_raw_trace (env : Env) (st : BridgeState) (m : String)
    (p : Option Json) :
    (call_raw env st m p).2.2 = [] ∨
    (call_raw env st m p).2.2 = [.request ⟨st.requestId, m, p⟩] := by
  unfold call_raw
  dsimp only
  split
  · exact Or.inl rfl
  · split
    · split
      · exact Or.inr rfl
      · exact Or.inr rfl
    · split
      · exact Or.inr rfl
      · split
        · exact Or.inr rfl
        · exact Or.inr rfl

/-- A successful `call_raw` always hands back a response whose id is the one
allocated for the request (`fetch_add`'s pre-increment value). -/
lemma call_raw_ok_id (env : Env) (st : BridgeState) (m : String)
    (p : Option Json) (resp : JsonRpcResponse)
    (h : (call_raw env st m p).1 = .ok resp) :
    resp.id = st.requestId := by
  unfold call_raw at h
  dsimp only at h
  split at h
  · exact Except.noConfusion h
  · split at h
    · split at h
      · exact Except.noConfusion h
      · exact Except.noConfusion h
    · split at h
      · exact Except.noConfusion h
      · rename_i hparse
        split at h
        · exact Except.noConfusion h
        · rename_i hid
          injection h with h
          subst h
          simpa using hid

/-- Full evaluation of `call_raw` on a live process whose next stdout line
is nonempty, parses, and answers the allocated id. -/
lemma call_raw_ok_eval (env : Env) (st : BridgeState) (m : String)
    (p : Option Json) (resp : JsonRpcResponse)
    (hrun : st.processRunning = true)
    (hline : (env.input st.readCursor).line.isEmpty = false)
    (hparse : env.parseResponse (env.input st.readCursor).line = some resp)
    (hid : resp.id = st.requestId) :
    call_raw env st m p =
      (.ok resp,
       { st with requestId := (st.requestId + 1) % u64Size,
                 readCursor := st.readCursor + 1 },
       [.request ⟨st.requestId, m, p⟩]) := by
  unfold call_raw
  simp [hrun, hline, hparse, hid]

/-- Mismatching response id: `call_raw` fails with the id-mismatch error. -/
lemma call_raw_id_mismatch (env : Env) (st : BridgeState) (m : String)
    (p : Option Json) (resp : JsonRpcResponse)
    (hrun : st.processRunning = true)
    (hline : (env.input st.readCursor).line.isEmpty = false)
    (hparse : env.parseResponse (env.input st.readCursor).line = some resp)
    (hid : resp.id ≠ st.requestId) :
    (call_raw env st m p).1 = .error (.responseIdMismatch st.requestId resp.id) := by
  unfold call_raw
  simp [hrun, hline, hparse, hid]

/-- Empty line read: the result is decided by the liveness probe. -/
lemma call_raw_empty_line (env : Env) (st : BridgeState) (m : String)
    (p : Option Json)
    (hrun : st.processRunning = true)
    (hline : (env.input st.readCursor).line.isEmpty = true) :
    (call_raw env st m p).1 =
      (match (env.input st.readCursor).exitStatus with
       | some status => Except.error (BridgeError.processExited status)
       | none => Except.error BridgeError.emptyResponse) := by
  unfold call_raw
  cases hst : (env.input st.readCursor).exitStatus <;> simp [hrun, hline, hst]

/-- Once the `initialized` flag is set, `initialize_mcp` is an immediate
no-op: success, unchanged state, nothing written. -/
lemma initialize_mcp_of_initialized (env : Env) (st : BridgeState)
    (h : st.initialized = true) :
    initialize_mcp env st = (.ok (), st, []) := by
  unfold initialize_mcp
  simp [h]

/-- A failing `initialize_mcp` never sets the flag: from an uninitialized
state, every error outcome leaves `initialized = false`. -/
lemma initialize_mcp_error_state (env : Env) (st : BridgeState)
    (h : st.initialized = false) (e : BridgeError) (st' : BridgeState)
    (tr : List WireMsg)
    (heq : initialize_mcp env st = (.error e, st', tr)) :
    st'.initialized = false := by
  have hpres := call_raw_initialized env st "initialize" (some initParamsJson)
  unfold initialize_mcp at heq
  rw [if_neg (by simp [h])] at heq
  rcases hcr : call_raw env st "initialize" (some initParamsJson) with ⟨res, st1, sent⟩
  rw [hcr] at heq hpres
  cases res with
  | error e' =>
    dsimp only at heq
    injection heq with h1 h2
    injection h2 with h2 h3
    subst h2
    simpa [h] using hpres
  | ok response =>
    dsimp only at heq
    cases hre : response.error with
    | some err =>
      rw [hre] at heq
      dsimp only at heq
      injection heq with h1 h2
      injection h2 with h2 h3
      subst h2
      simpa [h] using hpres
    | none =>
      rw [hre] at heq
      dsimp only at heq
      split at heq
      · injection heq with h1 h2
        injection h2 with h2 h3
        subst h2
        simpa [h] using hpres
      · exact absurd (congrArg Prod.fst heq) (by simp)

/-- A successful `initialize_mcp` ends with the flag set and the
`notifications/initialized` notification as the last thing written. -/
lemma initialize_mcp_ok_state (env : Env) (st : BridgeState)
    (h : st.initialized = false) (st' : BridgeState) (tr : List WireMsg)
    (heq : initialize_mcp env st = (.ok (), st', tr)) :
    st'.initialized = true ∧
    ∃ pre, tr = pre ++ [WireMsg.notif "notifications/initialized"] := by
  unfold initialize_mcp at heq
  rw [if_neg (by simp [h])] at heq
  rcases hcr : call_raw env st "initialize" (some initParamsJson) with ⟨res, st1, sent⟩
  rw [hcr] at heq
  cases res with
  | error e' => exact absurd (congrArg Prod.fst heq) (by simp)
  | ok response =>
    dsimp only at heq
    cases hre : response.error with
    | some err =>
      rw [hre] at heq
      exact absurd (congrArg Prod.fst heq) (by simp)
    | none =>
      rw [hre] at heq
      dsimp only at heq
      split at heq
      · exact absurd (congrArg Prod.fst heq) (by simp)
      · injection heq with h1 h2
        injection h2 with h2 h3
        subst h2 h3
        exact ⟨rfl, sent, rfl⟩

/-- When the `initialize` exchange comes back carrying a protocol error,
`initialize_mcp` fails with that error. -/
lemma initialize_mcp_handshake_error (env : Env) (st : BridgeState)
    (h : st.initialized = false) (resp : JsonRpcResponse) (err : JsonRpcError)
    (hok : (call_raw env st "initialize" (some initParamsJson)).1 = .ok resp)
    (herr : resp.error = some err) :
    (initialize_mcp env st).1 = .error (.handshakeFailed err) := by
  unfold initialize_mcp
  rw [if_neg (by simp [h])]
  rcases hcr : call_raw env st "initialize" (some initParamsJson) with ⟨res, st1, sent⟩
  rw [hcr] at hok
  dsimp only at hok
  subst hok
  simp [herr]

/-- `ensure_process` touches nothing but the process flag. -/
lemma ensure_process_state (st : BridgeState) (spawnOk : Bool) :
    (ensure_process st spawnOk).2 = st ∨
    (ensure_process st spawnOk).2 = { st with processRunning := true } := by
  unfold ensure_process
  split
  · exact Or.inl rfl
  · split
    · exact Or.inr rfl
    · exact Or.inl rfl

/-- On a live process `ensure_process` is an immediate no-op. -/
lemma ensure_process_of_running (st : BridgeState) (spawnOk : Bool)
    (h : st.processRunning = true) :
    ensure_process st spawnOk = (.ok (), st) := by
  unfold ensure_process
  simp [h]

lemma initCount_append (a b : List WireMsg) :
    initCount (a ++ b) = initCount a + initCount b := by
  simp [initCount, List.filter_append]

lemma initCount_nil : initCount [] = 0 := rfl

/-- A `call_raw` for any method other than `initialize` writes no
`initialize` request. -/
lemma initCount_call_raw_ne (env : Env) (st : BridgeState) (m : String)
    (p : Option Json) (h : (m == "initialize") = false) :
    initCount (call_raw env st m p).2.2 = 0 := by
  rcases call_raw_trace env st m p with htr | htr <;>
    simp [htr, initCount, WireMsg.isInitRequest, h]

/-- A single `call_raw` writes at most one `initialize` request. -/
lemma initCount_call_raw_le (env : Env) (st : BridgeState) (m : String)
    (p : Option Json) :
    initCount (call_raw env st m p).2.2 ≤ 1 := by
  rcases call_raw_trace env st m p with htr | htr
  · simp [htr, initCount]
  · rw [htr]
    simp only [initCount, List.filter_cons]
    split <;> simp

/-- One `initialize_mcp` run writes at most one `initialize` request. -/
lemma initCount_initialize_mcp_le (env : Env) (st : BridgeState) :
    initCount (initialize_mcp env st).2.2 ≤ 1 := by
  have hcnt := initCount_call_raw_le env st "initialize" (some initParamsJson)
  unfold initialize_mcp
  split
  · simp [initCount]
  · rcases hcr : call_raw env st "initialize" (some initParamsJson) with ⟨res, st1, sent⟩
    rw [hcr] at hcnt
    dsimp only at hcnt ⊢
    cases res with
    | error e' => exact hcnt
    | ok response =>
      dsimp only
      cases hre : response.error with
      | some err => exact hcnt
      | none =>
        dsimp only
        split
        · exact hcnt
        · simp only [initCount_append]
          have hnotif : initCount [WireMsg.notif "notifications/initialized"] = 0 := rfl
          omega

lemma ensure_process_initialized (st : BridgeState) (spawnOk : Bool) :
    ((ensure_process st spawnOk).2).initialized = st.initialized := by
  rcases ensure_process_state st spawnOk with h | h <;> rw [h]

/-- A `call` that starts on an already-initialized session writes no
`initialize` request at all. -/
lemma initCount_call_of_initialized (env : Env) (st : BridgeState)
    (spawnOk : Bool) (t : String) (p : Option Json)
    (h : st.initialized = true) :
    initCount (call env st spawnOk t p).2.2 = 0 := by
  have hpres := ensure_process_initialized st spawnOk
  unfold call call_tool
  rcases hep : ensure_process st spawnOk with ⟨res0, st1⟩
  rw [hep] at hpres
  dsimp only at hpres
  cases res0 with
  | error e => simp [initCount]
  | ok u =>
    dsimp only
    rw [initialize_mcp_of_initialized env st1 (hpres.trans h)]
    dsimp only
    have hne : (("tools/call" : String) == "initialize") = false := by decide
    have hcall := initCount_call_raw_ne env st1 "tools/call"
      (some (toolCallParams t (p.getD (.obj [])))) hne
    rcases hcr : call_raw env st1 "tools/call"
        (some (toolCallParams t (p.getD (.obj [])))) with ⟨res1, st2, sentCall⟩
    rw [hcr] at hcall
    dsimp only at hcall
    cases res1 <;> simpa [initCount] using hcall

/-- Any single `call` writes at most one `initialize` request. -/
lemma initCount_call_le_one (env : Env) (st : BridgeState) (spawnOk : Bool)
    (t : String) (p : Option Json) :
    initCount (call env st spawnOk t p).2.2 ≤ 1 := by
  unfold call call_tool
  rcases hep : ensure_process st spawnOk with ⟨res0, st1⟩
  cases res0 with
  | error e => simp [initCount]
  | ok u =>
    dsimp only
    have hle := initCount_initialize_mcp_le env st1
    rcases him : initialize_mcp env st1 with ⟨res1, st2, sentInit⟩
    rw [him] at hle
    dsimp only at hle
    cases res1 with
    | error e => exact hle
    | ok u' =>
      dsimp only
      have hne : (("tools/call" : String) == "initialize") = false := by decide
      have hcall := initCount_call_raw_ne env st2 "tools/call"
        (some (toolCallParams t (p.getD (.obj [])))) hne
      rcases hcr : call_raw env st2 "tools/call"
          (some (toolCallParams t (p.getD (.obj [])))) with ⟨res2, st3, sentCall⟩
      rw [hcr] at hcall
      dsimp only at hcall
      cases res2 <;> (rw [initCount_append]; omega)

/-- A schedule from the all-done state does nothing. -/
lemma lockRuns_final {tr : List LockEvent}
    (h : LockRuns ⟨none, [], []⟩ tr ⟨none, [], []⟩) : tr = [] := by
  cases h with
  | nil => rfl
  | cons hs _ => cases hs

/-- While A holds the lock, only A can step; its pending write happens
next. -/
lemma lockRuns_A_wr {s : String} {ra rb : List LockAction}
    {tr : List LockEvent}
    (h : LockRuns ⟨some false, .wr s :: ra, rb⟩ tr ⟨none, [], []⟩) :
    ∃ tr', tr = ⟨false, .wr s⟩ :: tr' ∧
      LockRuns ⟨some false, ra, rb⟩ tr' ⟨none, [], []⟩ := by
  cases h with
  | cons hs h1 => cases hs with | wrA => exact ⟨_, rfl, h1⟩

lemma lockRuns_A_rd {ra rb : List LockAction} {tr : List LockEvent}
    (h : LockRuns ⟨some false, .rd :: ra, rb⟩ tr ⟨none, [], []⟩) :
    ∃ tr', tr = ⟨false, .rd⟩ :: tr' ∧
      LockRuns ⟨some false, ra, rb⟩ tr' ⟨none, [], []⟩ := by
  cases h with
  | cons hs h1 => cases hs with | rdA => exact ⟨_, rfl, h1⟩

lemma lockRuns_A_rel {ra rb : List LockAction} {tr : List LockEvent}
    (h : LockRuns ⟨some false, .rel :: ra, rb⟩ tr ⟨none, [], []⟩) :
    ∃ tr', tr = ⟨false, .rel⟩ :: tr' ∧
      LockRuns ⟨none, ra, rb⟩ tr' ⟨none, [], []⟩ := by
  cases h with
  | cons hs h1 => cases hs with | relA => exact ⟨_, rfl, h1⟩

lemma lockRuns_B_wr {s : String} {ra rb : List LockAction}
    {tr : List LockEvent}
    (h : LockRuns ⟨some true, ra, .wr s :: rb⟩ tr ⟨none, [], []⟩) :
    ∃ tr', tr = ⟨true, .wr s⟩ :: tr' ∧
      LockRuns ⟨some true, ra, rb⟩ tr' ⟨none, [], []⟩ := by
  cases h with
  | cons hs h1 => cases hs with | wrB => exact ⟨_, rfl, h1⟩

lemma lockRuns_B_rd {ra rb : List LockAction} {tr : List LockEvent}
    (h : LockRuns ⟨some true, ra, .rd :: rb⟩ tr ⟨none, [], []⟩) :
    ∃ tr', tr = ⟨true, .rd⟩ :: tr' ∧
      LockRuns ⟨some true, ra, rb⟩ tr' ⟨none, [], []⟩ := by
  cases h with
  | cons hs h1 => cases hs with | rdB => exact ⟨_, rfl, h1⟩

lemma lockRuns_B_rel {ra rb : List LockAction} {tr : List LockEvent}
    (h : LockRuns ⟨some true, ra, .rel :: rb⟩ tr ⟨none, [], []⟩) :
    ∃ tr', tr = ⟨true, .rel⟩ :: tr' ∧
      LockRuns ⟨none, ra, rb⟩ tr' ⟨none, [], []⟩ := by
  cases h with
  | cons hs h1 => cases hs with | relB => exact ⟨_, rfl, h1⟩

/-- With A finished, the only remaining schedule is B's own locked
section, run in order. -/
lemma lockRuns_B_start {l1 l2 : String} {tr : List LockEvent}
    (h : LockRuns ⟨none, [], [.acq, .wr l1, .wr l2, .rd, .rel]⟩ tr
      ⟨none, [], []⟩) :
    tr = [⟨true, .acq⟩, ⟨true, .wr l1⟩, ⟨true, .wr l2⟩, ⟨true, .rd⟩,
          ⟨true, .rel⟩] := by
  cases h with
  | cons hs h1 =>
    cases hs with
    | acqB =>
      obtain ⟨tr2, rfl, h2⟩ := lockRuns_B_wr h1
      obtain ⟨tr3, rfl, h3⟩ := lockRuns_B_wr h2
      obtain ⟨tr4, rfl, h4⟩ := lockRuns_B_rd h3
      obtain ⟨tr5, rfl, h5⟩ := lockRuns_B_rel h4
      rw [lockRuns_final h5]

/-- With B finished, the only remaining schedule is A's own locked
section, run in order. -/
lemma lockRuns_A_start {l1 l2 : String} {tr : List LockEvent}
    (h : LockRuns ⟨none, [.acq, .wr l1, .wr l2, .rd, .rel], []⟩ tr
      ⟨none, [], []⟩) :
    tr = [⟨false, .acq⟩, ⟨false, .wr l1⟩, ⟨false, .wr l2⟩, ⟨false, .rd⟩,
          ⟨false, .rel⟩] := by
  cases h with
  | cons hs h1 =>
    cases hs with
    | acqA =>
      obtain ⟨tr2, rfl, h2⟩ := lockRuns_A_wr h1
      obtain ⟨tr3, rfl, h3⟩ := lockRuns_A_wr h2
      obtain ⟨tr4, rfl, h4⟩ := lockRuns_A_rd h3
      obtain ⟨tr5, rfl, h5⟩ := lockRuns_A_rel h4
      rw [lockRuns_final h5]
/-! ## Claim theorems -/

/-- C1 (code bug): after `shutdown()` on a live, initialized session the
process handle is cleared, but — contrary to the claim and §4.5/§8 of the
spec — the `initialized` flag is NOT cleared (`shutdown` never touches it),
so the next `call` respawns the process and then skips the
initialize/initialized handshake entirely: the call's stdin trace contains
no `initialize` request, yet the call is served as a success on the fresh
process. -/
theorem c1_shutdown_stale_initialized :
    (shutdown liveReadyState).processRunning = false ∧
    (shutdown liveReadyState).initialized = true ∧
    (call c1Env (shutdown liveReadyState) true "tasks_list" none).2.1.processRunning = true ∧
    initCount (call c1Env (shutdown liveReadyState) true "tasks_list" none).2.2 = 0 ∧
    (call c1Env (shutdown liveReadyState) true "tasks_list" none).1 = .ok successResult :=
  ⟨rfl, rfl, rfl, rfl, rfl⟩

/-- C2: a `call_raw` that returns a response as success always returns one
whose id equals the id freshly allocated for that call, and a parsed
response whose id differs from the allocated id makes the call fail with
the id-mismatch error — a mismatched response is never returned as a
success. -/
theorem c2_response_id_checked (env : Env) (st : BridgeState) (m : String)
    (p : Option Json) :
    (∀ resp, (call_raw env st m p).1 = .ok resp → resp.id = st.requestId) ∧
    (∀ resp, st.processRunning = true →
      (env.input st.readCursor).line.isEmpty = false →
      env.parseResponse (env.input st.readCursor).line = some resp →
      resp.id ≠ st.requestId →
      (call_raw env st m p).1 =
        .error (.responseIdMismatch st.requestId resp.id)) :=
  ⟨fun resp h => call_raw_ok_id env st m p resp h,
   fun resp h1 h2 h3 h4 => call_raw_id_mismatch env st m p resp h1 h2 h3 h4⟩

theorem c2_witness :
    (⟨0, some successResult, none⟩ : JsonRpcResponse).id = readyState.requestId ∧
    (call_raw mismatchEnv readyState "tools/call" none).1 =
      .error (.responseIdMismatch 0 99) :=
  ⟨(c2_response_id_checked (mkEnv1 ⟨0, some successResult, none⟩ (fun _ => none))
      readyState "tools/call" none).1 ⟨0, some successResult, none⟩ rfl,
   (c2_response_id_checked mismatchEnv readyState "tools/call" none).2
      ⟨99, some successResult, none⟩ rfl rfl rfl (by decide)⟩

/-- C3: envelope unwrapping in `call_tool` — a `json` field of the first
content item is returned verbatim; otherwise a string `text` field is
parsed as JSON, a parse failure being the envelope-decode error; with no
`content` array, an empty one, or a first item with neither field, the
whole result is returned unchanged; and on the three concrete examples of
the spec the full call pipeline yields `{"a":1}`, `{"a":1}`, and the raw
result object respectively. -/
theorem c3_envelope_unwrapping :
    (∀ (pj : String → Option Json) (res first : Json) (rest : List Json) (j : Json),
      (res.get "content").bind Json.as_array = some (first :: rest) →
      first.get "json" = some j →
      unwrap_result pj res = .ok j) ∧
    (∀ (pj : String → Option Json) (res first : Json) (rest : List Json)
        (t : String) (v : Json),
      (res.get "content").bind Json.as_array = some (first :: rest) →
      first.get "json" = none →
      (first.get "text").bind Json.as_str = some t →
      pj t = some v →
      unwrap_result pj res = .ok v) ∧
    (∀ (pj : String → Option Json) (res first : Json) (rest : List Json)
        (t : String),
      (res.get "content").bind Json.as_array = some (first :: rest) →
      first.get "json" = none →
      (first.get "text").bind Json.as_str = some t →
      pj t = none →
      unwrap_result pj res = .error .envelopeDecodeError) ∧
    (∀ (pj : String → Option Json) (res first : Json) (rest : List Json),
      (res.get "content").bind Json.as_array = some (first :: rest) →
      first.get "json" = none →
      (first.get "text").bind Json.as_str = none →
      unwrap_result pj res = .ok res) ∧
    (∀ (pj : String → Option Json) (res : Json),
      (res.get "content").bind Json.as_array = none →
      unwrap_result pj res = .ok res) ∧
    (∀ (pj : String → Option Json) (res : Json),
      (res.get "content").bind Json.as_array = some [] →
      unwrap_result pj res = .ok res) ∧
    (call_tool (mkEnv1 ⟨0, some envelopeJsonResult, none⟩ exParseJson)
      readyState true "t" (.obj [])).1 = .ok objA1 ∧
    (call_tool (mkEnv1 ⟨0, some envelopeTextResult, none⟩ exParseJson)
      readyState true "t" (.obj [])).1 = .ok objA1 ∧
    (call_tool (mkEnv1 ⟨0, some envelopeEmptyResult, none⟩ exParseJson)
      readyState true "t" (.obj [])).1 = .ok envelopeEmptyResult := by
  refine ⟨?_, ?_, ?_, ?_, ?_, ?_, rfl, rfl, rfl⟩
  · intro pj res first rest j h1 h2
    unfold unwrap_result
    rw [h1]
    dsimp only
    rw [List.head?_cons]
    dsimp only
    rw [h2]
  · intro pj res first rest t v h1 h2 h3 h4
    unfold unwrap_result
    rw [h1]
    dsimp only
    rw [List.head?_cons]
    dsimp only
    rw [h2]
    dsimp only
    rw [h3]
    dsimp only
    rw [h4]
  · intro pj res first rest t h1 h2 h3 h4
    unfold unwrap_result
    rw [h1]
    dsimp only
    rw [List.head?_cons]
    dsimp only
    rw [h2]
    dsimp only
    rw [h3]
    dsimp only
    rw [h4]
  · intro pj res first rest h1 h2 h3
    unfold unwrap_result
    rw [h1]
    dsimp only
    rw [List.head?_cons]
    dsimp only
    rw [h2]
    dsimp only
    rw [h3]
  · intro pj res h1
    unfold unwrap_result
    rw [h1]
  · intro pj res h1
    unfold unwrap_result
    rw [h1]
    dsimp only
    rw [List.head?_nil]

theorem c3_witness :
    unwrap_result exParseJson envelopeJsonResult = .ok objA1 ∧
    unwrap_result exParseJson envelopeTextResult = .ok objA1 ∧
    unwrap_result exParseJson envelopeEmptyResult = .ok envelopeEmptyResult :=
  ⟨c3_envelope_unwrapping.1 exParseJson envelopeJsonResult
      (.obj [("type", .str "json"), ("json", objA1)]) [] objA1 rfl rfl,
   c3_envelope_unwrapping.2.1 exParseJson envelopeTextResult
      (.obj [("type", .str "text"), ("text", .str textPayload)]) []
      textPayload objA1 rfl rfl rfl rfl,
   c3_envelope_unwrapping.2.2.2.2.2.1 exParseJson envelopeEmptyResult rfl⟩

/-- C4: a zero-byte `read_line` (empty line) is cross-checked against
process liveness: with the child exited the call fails with
`ProcessExited` carrying the status, otherwise with `EmptyResponse`; an
empty read never yields a success. -/
theorem c4_eof_liveness (env : Env) (st : BridgeState) (m : String)
    (p : Option Json)
    (hrun : st.processRunning = true)
    (hline : (env.input st.readCursor).line.isEmpty = true) :
    (∀ status, (env.input st.readCursor).exitStatus = some status →
      (call_raw env st m p).1 = .error (.processExited status)) ∧
    ((env.input st.readCursor).exitStatus = none →
      (call_raw env st m p).1 = .error .emptyResponse) := by
  constructor
  · intro status hst
    rw [call_raw_empty_line env st m p hrun hline, hst]
  · intro hst
    rw [call_raw_empty_line env st m p hrun hline, hst]

theorem c4_witness :
    (call_raw eofDeadEnv readyState "tools/call" none).1 =
      .error (.processExited 1) ∧
    (call_raw eofAliveEnv readyState "tools/call" none).1 =
      .error .emptyResponse :=
  ⟨(c4_eof_liveness eofDeadEnv readyState "tools/call" none rfl rfl).1 1 rfl,
   (c4_eof_liveness eofAliveEnv readyState "tools/call" none rfl rfl).2 rfl⟩

/-- C5: handshake failure atomicity — from an uninitialized session, an
initialize response carrying an error makes `initialize_mcp` fail with the
handshake error; every error outcome leaves `initialized = false`; and
success sets the flag only together with the `notifications/initialized`
notification being the last write. -/
theorem c5_handshake_atomic (env : Env) (st : BridgeState)
    (h : st.initialized = false) :
    (∀ resp err,
      (call_raw env st "initialize" (some initParamsJson)).1 = .ok resp →
      resp.error = some err →
      (initialize_mcp env st).1 = .error (.handshakeFailed err)) ∧
    (∀ e st' tr, initialize_mcp env st = (.error e, st', tr) →
      st'.initialized = false) ∧
    (∀ st' tr, initialize_mcp env st = (.ok (), st', tr) →
      st'.initialized = true ∧
      ∃ pre, tr = pre ++ [WireMsg.notif "notifications/initialized"]) :=
  ⟨fun resp err hok herr =>
      initialize_mcp_handshake_error env st h resp err hok herr,
   fun e st' tr heq => initialize_mcp_error_state env st h e st' tr heq,
   fun st' tr heq => initialize_mcp_ok_state env st h st' tr heq⟩

theorem c5_witness :
    (initialize_mcp c6Env c6State).1 = .error (.handshakeFailed rpcErr) ∧
    (⟨true, 2, false, 1⟩ : BridgeState).initialized = false :=
  ⟨(c5_handshake_atomic c6Env c6State rfl).1 ⟨1, none, some rpcErr⟩ rpcErr
      rfl rfl,
   (c5_handshake_atomic c6Env c6State rfl).2.1 (.handshakeFailed rpcErr)
      ⟨true, 2, false, 1⟩ [.request ⟨1, "initialize", some initParamsJson⟩]
      rfl⟩

/-- C6 counterexample: two consecutive `call()` invocations on a session
whose process stays live throughout perform TWO initialize exchanges when
the first handshake attempt is answered with a protocol error (the flag
stays false, so the second call retries) — refuting "at most one
initialize exchange" as universally stated. -/
theorem c6_counterexample :
    c6State.processRunning = true ∧ c6State.initialized = false ∧
    (call c6Env c6State true "tasks_list" none).2.1.processRunning = true ∧
    (call c6Env (call c6Env c6State true "tasks_list" none).2.1 true
      "tasks_list" none).2.1.processRunning = true ∧
    initCount ((call c6Env c6State true "tasks_list" none).2.2 ++
      (call c6Env (call c6Env c6State true "tasks_list" none).2.1 true
        "tasks_list" none).2.2) = 2 :=
  ⟨rfl, rfl, rfl, rfl, rfl⟩

/-- C6 (amended): once the `initialized` flag is true, `initialize_mcp`
returns success immediately without sending anything; hence two
consecutive `call()` invocations perform at most one initialize exchange
provided the first call completes the handshake (leaves the flag true). -/
theorem c6_handshake_idempotent :
    (∀ env st, st.initialized = true →
      initialize_mcp env st = (.ok (), st, [])) ∧
    (∀ env st spawn1 spawn2 t1 p1 t2 p2,
      (call env st spawn1 t1 p1).2.1.initialized = true →
      initCount ((call env st spawn1 t1 p1).2.2 ++
        (call env (call env st spawn1 t1 p1).2.1 spawn2 t2 p2).2.2) ≤ 1) := by
  constructor
  · exact fun env st h => initialize_mcp_of_initialized env st h
  · intro env st spawn1 spawn2 t1 p1 t2 p2 h
    rw [initCount_append]
    have h1 := initCount_call_le_one env st spawn1 t1 p1
    have h2 := initCount_call_of_initialized env
      (call env st spawn1 t1 p1).2.1 spawn2 t2 p2 h
    omega

theorem c6_witness :
    initialize_mcp c6OkEnv ⟨true, 3, true, 2⟩ =
      (.ok (), ⟨true, 3, true, 2⟩, []) ∧
    initCount ((call c6OkEnv c6State true "tasks_list" none).2.2 ++
      (call c6OkEnv (call c6OkEnv c6State true "tasks_list" none).2.1 true
        "tasks_show" none).2.2) ≤ 1 :=
  ⟨c6_handshake_idempotent.1 c6OkEnv ⟨true, 3, true, 2⟩ rfl,
   c6_handshake_idempotent.2 c6OkEnv c6State true true "tasks_list" none
      "tasks_show" none rfl⟩

/-- C7: error-branch mapping in `call_tool` — a response with `error` set
fails the call with the backend's code and message; a response with
neither result nor error fails with the empty-tool-response error; neither
is ever returned as success. -/
theorem c7_error_mapping (env : Env) (st : BridgeState) (spawnOk : Bool)
    (t : String) (a : Json) (resp : JsonRpcResponse)
    (hrun : st.processRunning = true)
    (hinit : st.initialized = true)
    (hline : (env.input st.readCursor).line.isEmpty = false)
    (hparse : env.parseResponse (env.input st.readCursor).line = some resp)
    (hid : resp.id = st.requestId) :
    (∀ err, resp.error = some err →
      (call_tool env st spawnOk t a).1 =
        .error (.toolInvocationError err.code err.message)) ∧
    (resp.error = none → resp.result = none →
      (call_tool env st spawnOk t a).1 = .error .emptyToolResponse) := by
  have hkey : (call_tool env st spawnOk t a).1 =
      handle_tool_response env.parseJson resp := by
    unfold call_tool
    rw [ensure_process_of_running st spawnOk hrun]
    dsimp only
    rw [initialize_mcp_of_initialized env st hinit]
    dsimp only
    rw [call_raw_ok_eval env st "tools/call" (some (toolCallParams t a))
      resp hrun hline hparse hid]
  constructor
  · intro err herr
    rw [hkey]
    simp [handle_tool_response, herr]
  · intro herr hres
    rw [hkey]
    simp [handle_tool_response, herr, hres]

theorem c7_witness :
    (call_tool toolErrEnv readyState true "t" (.obj [])).1 =
      .error (.toolInvocationError 5 "boom") ∧
    (call_tool emptyRespEnv readyState true "t" (.obj [])).1 =
      .error .emptyToolResponse :=
  ⟨(c7_error_mapping toolErrEnv readyState true "t" (.obj [])
      ⟨0, none, some ⟨5, "boom"⟩⟩ rfl rfl rfl rfl rfl).1 ⟨5, "boom"⟩ rfl,
   (c7_error_mapping emptyRespEnv readyState true "t" (.obj [])
      ⟨0, none, none⟩ rfl rfl rfl rfl rfl).2 rfl rfl⟩

/-- C8: every invalidation of the process handle asks the backend process
to terminate — `shutdown` on a held handle clears the slot and invokes
`kill` on the child (and is a no-op on an empty slot), and
dropping the Session drops the held handle, whose `Drop` impl invokes
`kill`. -/
theorem c8_teardown_kills :
    (∀ p : BridgeProcess, shutdown_handle (some p) = (none, some p.child.kill)) ∧
    shutdown_handle none = (none, none) ∧
    (∀ p : BridgeProcess, pythonBridgeDrop (some p) = some p.child.kill) ∧
    pythonBridgeDrop none = none ∧
    (∀ c : Child, (Child.kill c).killRequested = true) :=
  ⟨fun _ => rfl, rfl, fun _ => rfl, rfl, fun _ => rfl⟩

/-- C9: with both callers' whole call sequences guarded by the single
`AppState.bridge` mutex, every complete schedule of two concurrent
steady-state calls serializes: the chunks written to the backend's stdin
are exactly the two complete newline-terminated request lines, whole and
non-interleaved, in the order in which the callers acquired the lock. -/
theorem c9_lock_serializes (lA lB : String) (tr : List LockEvent)
    (h : LockRuns ⟨none, callCritical lA, callCritical lB⟩ tr
      ⟨none, [], []⟩) :
    (acqOrder tr = [false, true] ∧ writesOf tr = [lA, nl, lB, nl]) ∨
    (acqOrder tr = [true, false] ∧ writesOf tr = [lB, nl, lA, nl]) := by
  simp only [callCritical] at h
  cases h with
  | cons hs h1 =>
    cases hs with
    | acqA =>
      obtain ⟨tr2, rfl, h2⟩ := lockRuns_A_wr h1
      obtain ⟨tr3, rfl, h3⟩ := lockRuns_A_wr h2
      obtain ⟨tr4, rfl, h4⟩ := lockRuns_A_rd h3
      obtain ⟨tr5, rfl, h5⟩ := lockRuns_A_rel h4
      rw [lockRuns_B_start h5]
      exact Or.inl ⟨rfl, rfl⟩
    | acqB =>
      obtain ⟨tr2, rfl, h2⟩ := lockRuns_B_wr h1
      obtain ⟨tr3, rfl, h3⟩ := lockRuns_B_wr h2
      obtain ⟨tr4, rfl, h4⟩ := lockRuns_B_rd h3
      obtain ⟨tr5, rfl, h5⟩ := lockRuns_B_rel h4
      rw [lockRuns_A_start h5]
      exact Or.inr ⟨rfl, rfl⟩

theorem c9_witness :
    (acqOrder exCrossTrace = [false, true] ∧
      writesOf exCrossTrace = ["x", nl, "y", nl]) ∨
    (acqOrder exCrossTrace = [true, false] ∧
      writesOf exCrossTrace = ["y", nl, "x", nl]) :=
  c9_lock_serializes "x" "y" exCrossTrace
    (LockRuns.cons LockStep.acqA (LockRuns.cons LockStep.wrA
      (LockRuns.cons LockStep.wrA (LockRuns.cons LockStep.rdA
      (LockRuns.cons LockStep.relA (LockRuns.cons LockStep.acqB
      (LockRuns.cons LockStep.wrB (LockRuns.cons LockStep.wrB
      (LockRuns.cons LockStep.rdB (LockRuns.cons LockStep.relB
      (LockRuns.nil _)))))))))))

/-- C10: envelope unwrapping never inspects the `type` tag — with a `json`
field present in the first content item its value is returned for every
parse function (so the `text` field is never consulted), regardless of the
item's `type`; concretely an item tagged `type:"text"` that carries a
`json` field yields the `json` value even under a parse function that
rejects everything; and `text` is consulted exactly when `json` is
absent. -/
theorem c10_type_tag_ignored :
    (∀ (pj pj' : String → Option Json) (res first : Json)
        (rest : List Json) (j : Json),
      (res.get "content").bind Json.as_array = some (first :: rest) →
      first.get "json" = some j →
      unwrap_result pj res = .ok j ∧
      unwrap_result pj res = unwrap_result pj' res) ∧
    (∀ (pj : String → Option Json) (res first : Json) (rest : List Json)
        (t : String),
      (res.get "content").bind Json.as_array = some (first :: rest) →
      first.get "json" = none →
      (first.get "text").bind Json.as_str = some t →
      unwrap_result pj res =
        (match pj t with
         | some v => .ok v
         | none => .error .envelopeDecodeError)) ∧
    unwrap_result (fun _ => none) (.obj [("content", .arr [mislabeledItem])]) =
      .ok (.num 7) ∧
    mislabeledItem.get "type" = some (.str "text") := by
  refine ⟨?_, ?_, rfl, rfl⟩
  · intro pj pj' res first rest j h1 h2
    have key : ∀ (q : String → Option Json), unwrap_result q res = .ok j := by
      intro q
      unfold unwrap_result
      rw [h1]
      dsimp only
      rw [List.head?_cons]
      dsimp only
      rw [h2]
    exact ⟨key pj, (key pj).trans (key pj').symm⟩
  · intro pj res first rest t h1 h2 h3
    unfold unwrap_result
    rw [h1]
    dsimp only
    rw [List.head?_cons]
    dsimp only
    rw [h2]
    dsimp only
    rw [h3]

theorem c10_witness :
    unwrap_result exParseJson (.obj [("content", .arr [mislabeledItem])]) =
      .ok (.num 7) ∧
    unwrap_result exParseJson (.obj [("content", .arr [mislabeledItem])]) =
      unwrap_result (fun _ => none)
        (.obj [("content", .arr [mislabeledItem])]) :=
  c10_type_tag_ignored.1 exParseJson (fun _ => none)
    (.obj [("content", .arr [mislabeledItem])]) mislabeledItem [] (.num 7)
    rfl rfl

end ApplyTaskGui
